import Mathlib

/-!
# Verification of the IoT server core

Shallow embedding of the connection handler of `servidor_iot.py` (header
parsing, action routing, file transfer with checksum verification, device
registry updates) and of the event bus of `src/device_events.py`
(subscribe/unsubscribe/emit, heartbeat sweep), together with proofs and
refutations of the specification's claims about them.

Modelling conventions:
* Decoded JSON values (`json.loads` output) are the inductive `JVal`;
  JSON numbers are modelled as integers (all sizes in the protocol are
  integral).  `json.loads` itself is an opaque parameter
  `parse : String → Option JVal` (`none` = a raised decode exception).
* `hashlib.sha256(...).hexdigest()` together with the re-open of the file is
  an opaque parameter `computeDigest : List Nat → Option String`;
  `none` models an exception raised while verifying the checksum.
* Bytes are `Nat`, byte strings are `List Nat`; the TCP stream is the list of
  chunks successive `conn.recv(BUFFER_SIZE)` calls return, the end of the
  list being the peer's close (an empty `recv` result).
* Timestamps (`time.time()` / `datetime.now()`) are seconds as `Nat`.
* Side effects are recorded in an explicit `Outcome`: tokens sent over the
  socket in order, file writes, the in-memory device registry, the persisted
  registry snapshot (`save_iot_devices`), the sensor-data write
  (`save_sensor_data`), and whether an exception escaped to the outer
  `except` of `handle_client` (`crashed`; in that case the connection is
  closed with nothing sent).
* `try_launch_remote_session` is fire-and-forget with no effect on the
  response path and is not modelled.
-/

namespace IoTVerif

mutual
/-- Decoded JSON values as produced by `json.loads`.  Objects are association
lists of string keys (Python dicts from `json.loads` have unique keys). -/
inductive JVal where
  | str (s : String)
  | num (n : Int)
  | bool (b : Bool)
  | null
  | arr (elems : JList)
  | obj (fields : JFields)
deriving DecidableEq, Repr

inductive JList where
  | nil
  | cons (v : JVal) (rest : JList)
deriving DecidableEq, Repr

inductive JFields where
  | nil
  | cons (key : String) (v : JVal) (rest : JFields)
deriving DecidableEq, Repr
end

/-- `str.lower()` (kernel-reducible replacement for `String.toLower`). -/
def strLower (s : String) : String := ⟨s.data.map Char.toLower⟩

/-- `str.startswith(p)`. -/
def strStartsWith (s p : String) : Bool := p.data.isPrefixOf s.data

/-- `str.endswith(p)`. -/
def strEndsWith (s p : String) : Bool := p.data.isSuffixOf s.data

/-- The digits of a decimal numeral, as a number (`none` on a non-digit or
on the empty list). -/
def natOfDigits (cs : List Char) : Option Nat :=
  match cs with
  | [] => none
  | _ =>
    cs.foldl (fun acc c => acc.bind
      (fun n => if c.isDigit then some (n * 10 + (c.toNat - 48)) else none))
      (some 0)

/-- `int(s)` on a decimal string: an optional minus sign then digits;
anything else raises `ValueError`. -/
def strToInt? (s : String) : Option Int :=
  match s.data with
  | '-' :: rest => (natOfDigits rest).map (fun n => -(n : Int))
  | cs => (natOfDigits cs).map (fun n => (n : Int))

/-- `header.get(key)`: the value stored under `key`, if present. -/
def JFields.lookupKey : JFields → String → Option JVal
  | .nil, _ => none
  | .cons k v rest, key => if k = key then some v else rest.lookupKey key

/-- `key in header`. -/
def JFields.hasKey (fields : JFields) (key : String) : Bool :=
  (fields.lookupKey key).isSome

/-- `header.get("action") == a` for a string literal `a` (Python `==` between
a decoded JSON value — or `None` when absent — and a `str` is true only when
the value is that very string). -/
def actionIs (fields : JFields) (a : String) : Bool :=
  match fields.lookupKey "action" with
  | some (.str s) => s = a
  | _ => false

/-- Whether the decoded JSON value is hashable in Python and can therefore
be used as a dict key: strings, numbers, booleans and `None` are hashable;
lists and dicts raise `TypeError: unhashable type`. -/
def JVal.hashable : JVal → Bool
  | .arr _ => false
  | .obj _ => false
  | _ => true

/-- `os.path.join(a, b)` with POSIX semantics, as used for
`os.path.join(DEST_DIR, filename)`: an absolute second component discards
the first one entirely. -/
def joinPath (a b : String) : String :=
  if strStartsWith b "/" then b
  else if a = "" || strEndsWith a "/" then a ++ b
  else a ++ "/" ++ b

/-- `BUFFER_SIZE = 4096`: the maximum number of bytes a single
`conn.recv(BUFFER_SIZE)` call can return. -/
def BUFFER_SIZE : Nat := 4096

/-- One entry of the in-memory device registry `iot_devices`:
`{"ip": ..., "device_type": ..., "last_seen": time.time()}`. -/
structure DeviceRecord where
  ip : String
  device_type : JVal
  last_seen : Nat
deriving DecidableEq, Repr

/-- Python dict assignment `d[k] = v`: replace the entry for `k` in place if
present, else append it. -/
def dictSet {α β : Type} [DecidableEq α] : List (α × β) → α → β → List (α × β)
  | [], k, v => [(k, v)]
  | (k', v') :: rest, k, v =>
      if k' = k then (k, v) :: rest else (k', v') :: dictSet rest k v

/-- Python dict lookup `d[k]` / `d.get(k)` (first matching entry). -/
def lookupDict {α β : Type} [DecidableEq α] : List (α × β) → α → Option β
  | [], _ => none
  | (k', v') :: rest, k => if k' = k then some v' else lookupDict rest k

/-- How many entries of the association list carry the given key. -/
def countKey {α β : Type} [DecidableEq α] (d : List (α × β)) (k : α) : Nat :=
  (d.filter (fun p => p.1 = k)).length

/-- The in-memory device registry `iot_devices` (keys are the decoded JSON
`serial` values, which need not be strings). -/
abbrev Registry := List (JVal × DeviceRecord)

/-- The receive loop of the transfer engine (both the explicit `send_file`
branch and the retro-compatible one run this verbatim):

```
total_received = 0
while total_received < size:
    data = conn.recv(BUFFER_SIZE)
    if not data: break
    f.write(data)
    total_received += len(data)
```

`stream` is the list of chunks successive `recv` calls deliver; the whole of
each received chunk is written, with no cap at `size - total_received`.
Returns the file content written and the final `total_received`. -/
def transferLoop (size : Int) : List (List Nat) → List Nat → Nat → List Nat × Nat
  | [], file, total => (file, total)
  | data :: rest, file, total =>
    if (total : Int) < size then
      if data.isEmpty then (file, total)
      else transferLoop size rest (file ++ data) (total + data.length)
    else (file, total)

/-- All externally visible effects of one `handle_client` call. -/
structure Outcome where
  /-- tokens passed to `conn.sendall`, in order -/
  sends : List String
  /-- files written: destination path and content -/
  fileWrites : List (String × List Nat)
  /-- the in-memory `iot_devices` map after the call -/
  registry : Registry
  /-- the snapshot written by `save_iot_devices`, if it ran -/
  savedRegistry : Option Registry
  /-- the `(serial, payload)` recorded by `save_sensor_data`, if it ran -/
  sensorWrite : Option (JVal × JVal)
  /-- an exception escaped to the outer `except` of `handle_client` -/
  crashed : Bool
deriving DecidableEq, Repr

/-- The no-effect outcome: nothing sent or written, registry unchanged. -/
def Outcome.base (registry : Registry) : Outcome :=
  ⟨[], [], registry, none, none, false⟩

/-- `int(header["size"])` on a decoded JSON value: integers pass through,
numeric strings are parsed (a non-numeric string raises), booleans coerce
(`int(True) == 1`), anything else raises. -/
def toPySize : JVal → Option Int
  | .num n => some n
  | .str s => strToInt? s
  | .bool b => some (if b then 1 else 0)
  | _ => none

/-- `actual != checksum` is false — i.e. the declared checksum accepts the
computed digest — exactly when the declared value is that digest string. -/
def checksumAccepts (declared : JVal) (actual : String) : Bool :=
  match declared with
  | .str c => c = actual
  | _ => false

/-- The transfer engine (lines 242–294 of `servidor_iot.py`, duplicated
verbatim at lines 301–350 for the retro-compatible route).  Callers guarantee
`filename`, `size` and `checksum` are all present.  A non-string `filename`
(`os.path.join` raises) or an unconvertible `size` (`int(...)` raises) crashes
the handler before the `ACK` is sent.  Otherwise: send `ACK` (no newline),
run the receive loop, then verify the digest of the written bytes against the
declared checksum: match → `EOF_OK`, mismatch → `ERR_CHECKSUM\n`, digest
computation raises (`computeDigest` = `none`) → `EOF_OK`. -/
def runTransfer (computeDigest : List Nat → Option String) (destDir : String)
    (fields : JFields) (stream : List (List Nat)) (registry : Registry) :
    Outcome :=
  match fields.lookupKey "filename", (fields.lookupKey "size").bind toPySize with
  | some (.str filename), some size =>
      let checksum := (fields.lookupKey "checksum").getD .null
      let filepath := joinPath destDir filename
      let result := transferLoop size stream [] 0
      let verdict : String :=
        match computeDigest result.1 with
        | some actual =>
            if checksumAccepts checksum actual then "EOF_OK" else "ERR_CHECKSUM\n"
        | none => "EOF_OK"
      { sends := ["ACK", verdict]
        fileWrites := [(filepath, result.1)]
        registry := registry
        savedRegistry := none
        sensorWrite := none
        crashed := false }
  | _, _ => { Outcome.base registry with crashed := true }

/-- Does the header carry all of `filename`, `size`, `checksum`
(`all(k in header for k in ("filename", "size", "checksum"))`)? -/
def hasTransferKeys (fields : JFields) : Bool :=
  fields.hasKey "filename" && fields.hasKey "size" && fields.hasKey "checksum"

/-- `handle_client` of `servidor_iot.py`.  `headerText` is what `_recv_header`
returned (`none` = empty connection); `parse` stands for `json.loads`
(`none` = decode exception); `peerIp` is `addr[0]`; `now` the current time;
`stream` the payload chunks the peer's socket delivers after the header.

Routing, in source order: text `ping` (case-insensitive) → `PONG\n`;
undecodable JSON → `ERR_INVALID_HEADER\n`; then for dict headers:
`action == "ping"` → `PONG\n`; `action == "hello"` → registry upsert keyed by
`header.get("serial", "DESCONOCIDO")`, snapshot persisted, `ACK_HELLO\n` —
but when the serial value is unhashable (a JSON array or object) the bare
assignment `iot_devices[serial] = {...}` raises `TypeError` before anything
is persisted or sent, and the outer `except` swallows it (`crashed`);
`action == "data"` → sensor write, `ACK_DATA\n` (here an unhashable serial
raises inside `save_sensor_data`'s own `try`, so the write is skipped but
`ACK_DATA\n` is still sent); `action == "send_file"` →
transfer engine when `filename`/`size`/`checksum` are all present, else
`ERR_INCOMPLETE_HEADER\n`; otherwise the retro-compatible route: any dict
still carrying all three transfer keys goes to the transfer engine, and only
the remaining requests get `ERR_UNKNOWN_ACTION\n`. -/
def handleClient (parse : String → Option JVal)
    (computeDigest : List Nat → Option String) (destDir peerIp : String)
    (now : Nat) (headerText : Option String) (stream : List (List Nat))
    (registry : Registry) : Outcome :=
  match headerText with
  | none => Outcome.base registry
  | some text =>
    if strLower text = "ping" then
      { Outcome.base registry with sends := ["PONG\n"] }
    else
      match parse text with
      | none => { Outcome.base registry with sends := ["ERR_INVALID_HEADER\n"] }
      | some (.obj fields) =>
          if actionIs fields "ping" then
            { Outcome.base registry with sends := ["PONG\n"] }
          else if actionIs fields "hello" then
            let serial := (fields.lookupKey "serial").getD (.str "DESCONOCIDO")
            let device_type := (fields.lookupKey "device_type").getD (.str "UNKNOWN")
            if serial.hashable then
              let registry2 := dictSet registry serial ⟨peerIp, device_type, now⟩
              { sends := ["ACK_HELLO\n"]
                fileWrites := []
                registry := registry2
                savedRegistry := some registry2
                sensorWrite := none
                crashed := false }
            else
              { Outcome.base registry with crashed := true }
          else if actionIs fields "data" then
            let serial := (fields.lookupKey "serial").getD (.str "DESCONOCIDO")
            let payload := (fields.lookupKey "payload").getD (.obj .nil)
            { Outcome.base registry with
                sends := ["ACK_DATA\n"]
                sensorWrite :=
                  if serial.hashable then some (serial, payload) else none }
          else if actionIs fields "send_file" then
            if hasTransferKeys fields then
              runTransfer computeDigest destDir fields stream registry
            else
              { Outcome.base registry with sends := ["ERR_INCOMPLETE_HEADER\n"] }
          else if hasTransferKeys fields then
            runTransfer computeDigest destDir fields stream registry
          else
            { Outcome.base registry with sends := ["ERR_UNKNOWN_ACTION\n"] }
      | some _ => { Outcome.base registry with sends := ["ERR_UNKNOWN_ACTION\n"] }

/-! ## Event bus (`src/device_events.py`) -/

/-- Callbacks are identified abstractly (subscriber lists only ever compare
them with `==`/`!=`). -/
abbrev Callback := Nat

/-- `self._subscribers : Dict[str, list]`. -/
abbrev SubscriberMap := List (String × List Callback)

/-- `self._subscribers.get(t, [])`. -/
def dictGetList (d : SubscriberMap) (t : String) : List Callback :=
  match d with
  | [] => []
  | (k, l) :: rest => if k = t then l else dictGetList rest t

/-- Effect of `subscribe` on the map: create the key with `[]` if missing,
then append the callback. -/
def subAppend : SubscriberMap → String → Callback → SubscriberMap
  | [], t, cb => [(t, [cb])]
  | (k, l) :: rest, t, cb =>
      if k = t then (k, l ++ [cb]) :: rest else (k, l) :: subAppend rest t cb

/-- Effect of `unsubscribe` on the map: if the key is present, keep only the
callbacks different from the one being removed (`[cb for cb in ... if cb != callback]`). -/
def unsubFilter : SubscriberMap → String → Callback → SubscriberMap
  | [], _, _ => []
  | (k, l) :: rest, t, cb =>
      if k = t then (k, l.filter (fun c => c ≠ cb)) :: rest
      else (k, l) :: unsubFilter rest t cb

/-- `DeviceEventManager` state: subscriber lists, the heartbeat table
`_last_heartbeat` (device id → last-seen time in seconds), and
`_heartbeat_timeout`. -/
structure EventManager where
  subscribers : SubscriberMap
  lastHeartbeat : List (String × Nat)
  heartbeatTimeout : Nat
deriving DecidableEq, Repr

/-- `DeviceEventManager.subscribe`. -/
def subscribe (m : EventManager) (t : String) (cb : Callback) : EventManager :=
  { m with subscribers := subAppend m.subscribers t cb }

/-- `DeviceEventManager.unsubscribe`. -/
def unsubscribe (m : EventManager) (t : String) (cb : Callback) : EventManager :=
  { m with subscribers := unsubFilter m.subscribers t cb }

/-- The callbacks `emit_event` invokes for an event of type `t`, in order:
the subscribers of `t` followed by the subscribers of the wildcard `"*"`
(a raising callback is logged and skipped, so every listed callback is
invoked). -/
def emitCallbacks (m : EventManager) (t : String) : List Callback :=
  dictGetList m.subscribers t ++ dictGetList m.subscribers "*"

/-- `DeviceEventManager.get_subscriber_count`.  Mirrors the Python truthiness
test `if event_type:`: `None` — and likewise the empty string — yield the
total over all event types. -/
def getSubscriberCount (m : EventManager) (eventType : Option String) : Nat :=
  match eventType with
  | some t =>
      if t = "" then (m.subscribers.map (fun p => p.2.length)).sum
      else (dictGetList m.subscribers t).length
  | none => (m.subscribers.map (fun p => p.2.length)).sum

/-- `DeviceEventManager.register_heartbeat`: record "now" for the id. -/
def registerHeartbeat (m : EventManager) (deviceId : String) (now : Nat) :
    EventManager :=
  { m with lastHeartbeat := dictSet m.lastHeartbeat deviceId now }

/-- The device ids for which one tick of `_heartbeat_monitor` emits a
`device_timeout` event.  The condition in the source is
`(now - last_beat).seconds > self._heartbeat_timeout`, and
`timedelta.seconds` is the seconds *component* of the normalized timedelta —
the elapsed whole seconds modulo 86400 — not the total elapsed seconds.
The sweep reads `_last_heartbeat` but never mutates it. -/
def sweepEmits (m : EventManager) (now : Nat) : List String :=
  ((m.lastHeartbeat.filter
      (fun p => (now - p.2) % 86400 > m.heartbeatTimeout)).map Prod.fst)

/-! ## General lemmas -/

/-- Everything the receive loop counts into `total_received` is written to the
file: the written content always has exactly `total_received` bytes (stated
with the starting accumulators explicit). -/
theorem transferLoop_length (size : Int) (chunks : List (List Nat))
    (file : List Nat) (total : Nat) :
    (transferLoop size chunks file total).1.length + total
      = (transferLoop size chunks file total).2 + file.length := by
  induction chunks generalizing file total with
  | nil => simp [transferLoop, Nat.add_comm]
  | cons c rest ih =>
    simp only [transferLoop]
    split
    · split
      · simp [Nat.add_comm]
      · have h := ih (file ++ c) (total + c.length)
        simp only [List.length_append] at h
        omega
    · simp [Nat.add_comm]

/-- When the peer delivers exactly `n` bytes in nonempty chunks, the loop
writes all of them and stops with `total_received = n`. -/
theorem transferLoop_exact (n : Nat) (chunks : List (List Nat))
    (file : List Nat) (total : Nat)
    (hne : ∀ c ∈ chunks, c ≠ [])
    (hsum : total + (chunks.map List.length).sum = n) :
    transferLoop (n : Int) chunks file total = (file ++ chunks.flatten, n) := by
  induction chunks generalizing file total with
  | nil =>
    simp only [List.map_nil, List.sum_nil, Nat.add_zero] at hsum
    simp [transferLoop, hsum]
  | cons c rest ih =>
    have hc : c ≠ [] := hne c (by simp)
    have hclen : 0 < c.length := List.length_pos.mpr hc
    simp only [List.map_cons, List.sum_cons] at hsum
    have hlt : (total : Int) < (n : Int) := by
      have hn : total < n := by omega
      exact_mod_cast hn
    have hemp : c.isEmpty = false := by
      cases c with
      | nil => exact absurd rfl hc
      | cons a l => rfl
    simp only [transferLoop]
    rw [if_pos hlt, if_neg (by simp [hemp])]
    rw [ih (file ++ c) (total + c.length)
      (fun d hd => hne d (List.mem_cons_of_mem c hd)) (by omega)]
    simp [List.append_assoc]

/-- A single `action` value cannot match two different action names. -/
theorem actionIs_unique (fields : JFields) {a b : String}
    (h : actionIs fields a = true) (hne : b ≠ a) :
    actionIs fields b = false := by
  unfold actionIs at h ⊢
  cases hlk : fields.lookupKey "action" with
  | none => rfl
  | some v =>
    rw [hlk] at h
    cases v with
    | str s =>
      simp only [decide_eq_true_eq] at h
      subst h
      simp only [decide_eq_false_iff_not]
      exact fun hsb => hne hsb.symm
    | num n => exact absurd h (by simp)
    | bool b' => exact absurd h (by simp)
    | null => exact absurd h (by simp)
    | arr l => exact absurd h (by simp)
    | obj f => exact absurd h (by simp)

/-- Any header with all three transfer keys and either an explicit
`send_file` action or no recognized action is handed to the transfer
engine. -/
theorem handleClient_transfer_route (parse : String → Option JVal)
    (cd : List Nat → Option String) (destDir ip : String) (now : Nat)
    (text : String) (fields : JFields) (stream : List (List Nat))
    (registry : Registry)
    (hping : strLower text ≠ "ping")
    (hparse : parse text = some (.obj fields))
    (hkeys : hasTransferKeys fields = true)
    (hroute : actionIs fields "send_file" = true
      ∨ (actionIs fields "ping" = false ∧ actionIs fields "hello" = false
          ∧ actionIs fields "data" = false)) :
    handleClient parse cd destDir ip now (some text) stream registry
      = runTransfer cd destDir fields stream registry := by
  rcases hroute with hact | ⟨hp, hh, hd⟩
  · have hp : actionIs fields "ping" = false :=
      actionIs_unique fields hact (by decide)
    have hh : actionIs fields "hello" = false :=
      actionIs_unique fields hact (by decide)
    have hd : actionIs fields "data" = false :=
      actionIs_unique fields hact (by decide)
    simp [handleClient, hping, hparse, hp, hh, hd, hact, hkeys]
  · cases hact : actionIs fields "send_file" with
    | true => simp [handleClient, hping, hparse, hp, hh, hd, hact, hkeys]
    | false => simp [handleClient, hping, hparse, hp, hh, hd, hact, hkeys]

/-! ### Subscriber-map lemmas -/

/-- Removing a callback and then reading the same key yields the filtered
list (also when the key is absent: both sides are empty). -/
theorem dictGetList_unsubFilter_self (d : SubscriberMap) (t : String)
    (cb : Callback) :
    dictGetList (unsubFilter d t cb) t
      = (dictGetList d t).filter (fun c => c ≠ cb) := by
  induction d with
  | nil => rfl
  | cons p rest ih =>
    obtain ⟨k, l⟩ := p
    by_cases hk : k = t
    · subst hk
      simp [unsubFilter, dictGetList]
    · simp [unsubFilter, dictGetList, hk, ih]

/-- Removing a callback under one key leaves every other key's list
unchanged. -/
theorem dictGetList_unsubFilter_other (d : SubscriberMap) (t t' : String)
    (cb : Callback) (h : t' ≠ t) :
    dictGetList (unsubFilter d t cb) t' = dictGetList d t' := by
  induction d with
  | nil => rfl
  | cons p rest ih =>
    obtain ⟨k, l⟩ := p
    by_cases hk : k = t
    · subst hk
      simp [unsubFilter, dictGetList, Ne.symm h]
    · by_cases hk' : k = t'
      · subst hk'
        simp [unsubFilter, dictGetList, hk]
      · simp [unsubFilter, dictGetList, hk, hk', ih]

/-- Subscribing appends the callback to the list under its key. -/
theorem dictGetList_subAppend_self (d : SubscriberMap) (t : String)
    (cb : Callback) :
    dictGetList (subAppend d t cb) t = dictGetList d t ++ [cb] := by
  induction d with
  | nil => simp [subAppend, dictGetList]
  | cons p rest ih =>
    obtain ⟨k, l⟩ := p
    by_cases hk : k = t
    · subst hk
      simp [subAppend, dictGetList]
    · simp [subAppend, dictGetList, hk, ih]

/-- Subscribing under one key leaves every other key's list unchanged. -/
theorem dictGetList_subAppend_other (d : SubscriberMap) (t t' : String)
    (cb : Callback) (h : t' ≠ t) :
    dictGetList (subAppend d t cb) t' = dictGetList d t' := by
  induction d with
  | nil => simp [subAppend, dictGetList, Ne.symm h]
  | cons p rest ih =>
    obtain ⟨k, l⟩ := p
    by_cases hk : k = t
    · subst hk
      simp [subAppend, dictGetList, Ne.symm h]
    · by_cases hk' : k = t'
      · subst hk'
        simp [subAppend, dictGetList, hk]
      · simp [subAppend, dictGetList, hk, hk', ih]

/-- Dropping the occurrences of one callback shortens a list by exactly its
number of occurrences. -/
theorem length_filter_ne_add_count (l : List Callback) (cb : Callback) :
    (l.filter (fun c => c ≠ cb)).length + l.count cb = l.length := by
  induction l with
  | nil => simp
  | cons a l ih =>
    by_cases h : a = cb
    · subst h
      rw [List.filter_cons_of_neg (by simp), List.count_cons_self]
      simp only [List.length_cons]
      omega
    · rw [List.filter_cons_of_pos (by simp [h]),
        List.count_cons_of_ne (Ne.symm h)]
      simp only [List.length_cons]
      omega

/-- Subscribing then unsubscribing a callback under key `t` shrinks the
total number of registrations by exactly the number of copies of that
callback that were registered under `t` beforehand. -/
theorem sumLens_sub_unsub (d : SubscriberMap) (t : String) (cb : Callback) :
    ((unsubFilter (subAppend d t cb) t cb).map (fun p => p.2.length)).sum
        + (dictGetList d t).count cb
      = (d.map (fun p => p.2.length)).sum := by
  induction d with
  | nil =>
    simp [subAppend, unsubFilter, dictGetList]
  | cons p rest ih =>
    obtain ⟨k, l⟩ := p
    by_cases hk : k = t
    · subst hk
      rw [show subAppend ((k, l) :: rest) k cb = (k, l ++ [cb]) :: rest from
        by simp [subAppend]]
      rw [show unsubFilter ((k, l ++ [cb]) :: rest) k cb
          = (k, (l ++ [cb]).filter (fun c => c ≠ cb)) :: rest from
        by simp [unsubFilter]]
      rw [show dictGetList ((k, l) :: rest) k = l from by simp [dictGetList]]
      simp only [List.map_cons, List.sum_cons]
      have hfl : (l ++ [cb]).filter (fun c => c ≠ cb)
          = l.filter (fun c => c ≠ cb) := by
        simp [List.filter_append]
      rw [hfl]
      have hlc := length_filter_ne_add_count l cb
      omega
    · rw [show subAppend ((k, l) :: rest) t cb
          = (k, l) :: subAppend rest t cb from by simp [subAppend, hk]]
      rw [show unsubFilter ((k, l) :: subAppend rest t cb) t cb
          = (k, l) :: unsubFilter (subAppend rest t cb) t cb from
        by simp [unsubFilter, hk]]
      rw [show dictGetList ((k, l) :: rest) t = dictGetList rest t from
        by simp [dictGetList, hk]]
      simp only [List.map_cons, List.sum_cons]
      omega

/-! ### Registry dictionary lemmas -/

/-- After `d[k] = v`, looking up `k` yields `v`. -/
theorem lookupDict_dictSet_self {α β : Type} [DecidableEq α]
    (d : List (α × β)) (k : α) (v : β) :
    lookupDict (dictSet d k v) k = some v := by
  induction d with
  | nil => simp [dictSet, lookupDict]
  | cons p rest ih =>
    obtain ⟨k', v'⟩ := p
    by_cases hk : k' = k
    · subst hk
      simp [dictSet, lookupDict]
    · simp [dictSet, lookupDict, hk, ih]

/-- `d[k] = v` leaves the number of entries under every other key
unchanged. -/
theorem countKey_dictSet_ne {α β : Type} [DecidableEq α]
    (d : List (α × β)) (k s : α) (v : β) (h : s ≠ k) :
    countKey (dictSet d k v) s = countKey d s := by
  induction d with
  | nil => simp [dictSet, countKey, Ne.symm h]
  | cons p rest ih =>
    obtain ⟨k', v'⟩ := p
    by_cases hk : k' = k
    · subst hk
      simp [dictSet, countKey, List.filter_cons, Ne.symm h]
    · simp only [dictSet, if_neg hk]
      by_cases hs : k' = s
      · subst hs
        simp only [countKey, List.filter_cons] at ih ⊢
        simp [ih]
      · simp only [countKey, List.filter_cons] at ih ⊢
        simp [hs, ih]

/-- `d[k] = v` leaves exactly one entry under `k` when there was at most one,
and in general replaces in place or appends: the entry count under `k`
becomes `max (old count) 1`. -/
theorem countKey_dictSet_self {α β : Type} [DecidableEq α]
    (d : List (α × β)) (k : α) (v : β) :
    countKey (dictSet d k v) k = max (countKey d k) 1 := by
  induction d with
  | nil => simp [dictSet, countKey]
  | cons p rest ih =>
    obtain ⟨k', v'⟩ := p
    by_cases hk : k' = k
    · subst hk
      simp only [dictSet, if_pos rfl]
      simp only [countKey, List.filter_cons] at ih ⊢
      simp
    · simp only [dictSet, if_neg hk]
      simp only [countKey, List.filter_cons] at ih ⊢
      simp [hk, ih]

/-- The transfer engine never sends the unknown-action token: its `sends` is
either empty (a crash before the `ACK`) or `ACK` followed by a verdict. -/
theorem runTransfer_sends_ne_unknown (cd : List Nat → Option String)
    (destDir : String) (fields : JFields) (stream : List (List Nat))
    (registry : Registry) :
    (runTransfer cd destDir fields stream registry).sends
      ≠ ["ERR_UNKNOWN_ACTION\n"] := by
  unfold runTransfer
  cases hf : fields.lookupKey "filename" with
  | none => simp [Outcome.base]
  | some v =>
    cases v <;>
      cases hz : (fields.lookupKey "size").bind toPySize <;>
        simp [Outcome.base]

/-! ## Claims -/

/-- C1: the claim asserts that after every `send_file` transfer the file
contains exactly `bytes_received` bytes with `bytes_received ≤ declared
size`.  The second half fails on the code: the receive loop calls
`conn.recv(BUFFER_SIZE)` without capping the request at
`size - total_received` and writes the whole returned chunk, so a peer that
delivers more than the declared size overshoots it.  Evaluation at the
failing input: declared size 1, the peer delivers a single 2-byte chunk
(well within `BUFFER_SIZE`); the handler writes both bytes, so
`bytes_received = 2 > 1`, violating the claimed invariant. -/
theorem C1_bytes_received_can_exceed_declared_size :
    (transferLoop 1 [[7, 7]] [] 0).2 = 2
    ∧ ¬ (transferLoop 1 [[7, 7]] [] 0).2 ≤ 1
    ∧ [7, 7].length ≤ BUFFER_SIZE
    ∧ (handleClient
        (fun _ => some (.obj (.cons "action" (.str "send_file")
          (.cons "filename" (.str "a.bin") (.cons "size" (.num 1)
          (.cons "checksum" (.str "c") .nil))))))
        (fun _ => some "c") "/srv/archivos_recibidos" "10.0.0.9" 0
        (some "hdr") [[7, 7]] []).fileWrites
      = [("/srv/archivos_recibidos/a.bin", [7, 7])] := by
  refine ⟨by decide, by decide, by decide, by decide⟩

/-- C2: the claim asserts every peer-supplied filename is sanitized so the
destination path stays inside the destination directory.  The code computes
`os.path.join(DEST_DIR, filename)` with no sanitization at all; an absolute
filename discards `DEST_DIR` entirely.  Evaluation at the failing input
`filename = "/etc/passwd"`: the handler writes to `/etc/passwd`, which is
not inside the destination directory. -/
theorem C2_filename_escapes_destination_directory :
    (handleClient
        (fun _ => some (.obj (.cons "action" (.str "send_file")
          (.cons "filename" (.str "/etc/passwd") (.cons "size" (.num 0)
          (.cons "checksum" (.str "c") .nil))))))
        (fun _ => some "c") "/srv/archivos_recibidos" "10.0.0.9" 0
        (some "hdr") [] []).fileWrites
      = [("/etc/passwd", [])]
    ∧ strStartsWith "/etc/passwd" "/srv/archivos_recibidos" = false
    ∧ joinPath "/srv/archivos_recibidos" "../../../etc/shadow"
      = "/srv/archivos_recibidos/../../../etc/shadow" := by
  refine ⟨by decide, by decide, by decide⟩

/-- C7: a header line that is not the (case-insensitive) `ping` token and
fails JSON decoding gets `ERR_INVALID_HEADER\n`; the decode exception is
caught inside the handler (nothing crashes, no other effect happens, the
registry is untouched, the connection is closed). -/
theorem C7_invalid_header_token (parse : String → Option JVal)
    (cd : List Nat → Option String) (destDir ip : String) (now : Nat)
    (text : String) (stream : List (List Nat)) (registry : Registry)
    (hping : strLower text ≠ "ping")
    (hparse : parse text = none) :
    handleClient parse cd destDir ip now (some text) stream registry
      = { Outcome.base registry with sends := ["ERR_INVALID_HEADER\n"] } := by
  simp [handleClient, hping, hparse]

/-- Witness for C7 at the concrete undecodable header `"not json"`. -/
theorem C7_invalid_header_token_witness :
    handleClient (fun _ => none) (fun _ => none) "/srv" "10.0.0.9" 5
        (some "not json") [] []
      = { Outcome.base [] with sends := ["ERR_INVALID_HEADER\n"] } :=
  C7_invalid_header_token (fun _ => none) (fun _ => none) "/srv" "10.0.0.9" 5
    "not json" [] [] (by decide) rfl

/-- C8: the claim asserts every device whose last heartbeat is older than
the timeout triggers a `device_timeout` emission on every tick until it
heartbeats again.  The sweep condition in the source is
`(now - last_beat).seconds > self._heartbeat_timeout`, and
`timedelta.seconds` is the seconds component modulo one day, not the total
elapsed time.  Evaluation at the failing input: a device last seen at t = 0,
timeout 10 s, sweeping at t = 86401 (one day plus one second): the elapsed
time 86401 s exceeds the timeout but the sweep emits nothing, because
`(now - last).seconds = 1`.  One tick at t = 11 shows the same entry does
emit while the elapsed time is below one day. -/
theorem C8_timeout_not_emitted_after_one_day :
    sweepEmits ⟨[], [("dev", 0)], 10⟩ 86401 = []
    ∧ 86401 - 0 > 10
    ∧ sweepEmits ⟨[], [("dev", 0)], 10⟩ 11 = ["dev"] := by
  refine ⟨by decide, by decide, by decide⟩

/-- C3 counterexample: the claim says an absent `serial` defaults to
`"UNKNOWN"`.  In the code the default is `"DESCONOCIDO"`
(`header.get("serial", "DESCONOCIDO")`): a `hello` header with no `serial`
creates the registry entry under the key `"DESCONOCIDO"`, and no entry under
`"UNKNOWN"` exists. -/
theorem C3_default_serial_not_UNKNOWN :
    (handleClient (fun _ => some (.obj (.cons "action" (.str "hello") .nil)))
        (fun _ => none) "/srv" "10.0.0.5" 42 (some "hdr") [] []).registry
      = [(JVal.str "DESCONOCIDO", ⟨"10.0.0.5", JVal.str "UNKNOWN", 42⟩)]
    ∧ lookupDict (handleClient
          (fun _ => some (.obj (.cons "action" (.str "hello") .nil)))
          (fun _ => none) "/srv" "10.0.0.5" 42 (some "hdr") [] []).registry
        (JVal.str "UNKNOWN") = none
    ∧ JVal.str "DESCONOCIDO" ≠ JVal.str "UNKNOWN" := by
  refine ⟨by decide, by decide, by decide⟩

/-- C3 amended: on `action == "hello"` with a hashable serial value (a JSON
string, number, boolean or null — an array or object raises `TypeError` at
the registry assignment before anything is sent or persisted), the serial
defaults to `"DESCONOCIDO"` (not `"UNKNOWN"`) when absent and the device
type defaults to `"UNKNOWN"`; the registry entry for that serial is set to
the peer's IP, the device type and the current timestamp (overwriting any
previous entry in place), the snapshot of the updated registry is
persisted, and the response is `ACK_HELLO\n`.  Repeating `hello` for a
serial overwrites its single entry: the count of entries under the serial
becomes `max (previous count) 1`, and a registry with at most one entry per
serial keeps that property. -/
theorem C3_hello_registry_update (parse : String → Option JVal)
    (cd : List Nat → Option String) (destDir ip : String) (now : Nat)
    (text : String) (fields : JFields) (stream : List (List Nat))
    (registry : Registry)
    (hping : strLower text ≠ "ping")
    (hparse : parse text = some (.obj fields))
    (hact : actionIs fields "hello" = true)
    (hserial :
      ((fields.lookupKey "serial").getD (.str "DESCONOCIDO")).hashable
        = true) :
    handleClient parse cd destDir ip now (some text) stream registry
      = { sends := ["ACK_HELLO\n"]
          fileWrites := []
          registry := dictSet registry
            ((fields.lookupKey "serial").getD (.str "DESCONOCIDO"))
            ⟨ip, (fields.lookupKey "device_type").getD (.str "UNKNOWN"), now⟩
          savedRegistry := some (dictSet registry
            ((fields.lookupKey "serial").getD (.str "DESCONOCIDO"))
            ⟨ip, (fields.lookupKey "device_type").getD (.str "UNKNOWN"), now⟩)
          sensorWrite := none
          crashed := false }
    ∧ lookupDict (dictSet registry
          ((fields.lookupKey "serial").getD (.str "DESCONOCIDO"))
          ⟨ip, (fields.lookupKey "device_type").getD (.str "UNKNOWN"), now⟩)
        ((fields.lookupKey "serial").getD (.str "DESCONOCIDO"))
      = some ⟨ip, (fields.lookupKey "device_type").getD (.str "UNKNOWN"), now⟩
    ∧ countKey (dictSet registry
          ((fields.lookupKey "serial").getD (.str "DESCONOCIDO"))
          ⟨ip, (fields.lookupKey "device_type").getD (.str "UNKNOWN"), now⟩)
        ((fields.lookupKey "serial").getD (.str "DESCONOCIDO"))
      = max (countKey registry
          ((fields.lookupKey "serial").getD (.str "DESCONOCIDO"))) 1
    ∧ ∀ s, countKey registry s ≤ 1 →
        countKey (dictSet registry
            ((fields.lookupKey "serial").getD (.str "DESCONOCIDO"))
            ⟨ip, (fields.lookupKey "device_type").getD (.str "UNKNOWN"), now⟩)
          s ≤ 1 := by
  have hp : actionIs fields "ping" = false :=
    actionIs_unique fields hact (by decide)
  refine ⟨by simp [handleClient, hping, hparse, hp, hact, hserial],
    lookupDict_dictSet_self ..,
    countKey_dictSet_self .., ?_⟩
  intro s hs
  by_cases hsk : s = (fields.lookupKey "serial").getD (.str "DESCONOCIDO")
  · subst hsk
    rw [countKey_dictSet_self]
    omega
  · rw [countKey_dictSet_ne _ _ _ _ hsk]
    exact hs

/-- Witness for C3 amended: a concrete `hello` with explicit serial `"S1"`
and device type `"SENSOR"` against a registry that already holds `"S1"`. -/
theorem C3_hello_registry_update_witness :
    handleClient
        (fun _ => some (.obj (.cons "action" (.str "hello")
          (.cons "serial" (.str "S1")
          (.cons "device_type" (.str "SENSOR") .nil)))))
        (fun _ => none) "/srv" "10.0.0.5" 42 (some "hdr") []
        [(JVal.str "S1", ⟨"10.0.0.4", JVal.str "SENSOR", 30⟩)]
      = { sends := ["ACK_HELLO\n"]
          fileWrites := []
          registry := [(JVal.str "S1", ⟨"10.0.0.5", JVal.str "SENSOR", 42⟩)]
          savedRegistry := some
            [(JVal.str "S1", ⟨"10.0.0.5", JVal.str "SENSOR", 42⟩)]
          sensorWrite := none
          crashed := false } := by
  have h := C3_hello_registry_update
    (fun _ => some (.obj (.cons "action" (.str "hello")
      (.cons "serial" (.str "S1")
      (.cons "device_type" (.str "SENSOR") .nil)))))
    (fun _ => none) "/srv" "10.0.0.5" 42 "hdr"
    (.cons "action" (.str "hello") (.cons "serial" (.str "S1")
      (.cons "device_type" (.str "SENSOR") .nil))) []
    [(JVal.str "S1", ⟨"10.0.0.4", JVal.str "SENSOR", 30⟩)]
    (by decide) rfl (by decide) (by decide)
  rw [h.1]
  decide

/-- C4 counterexample: the claim says a decodable JSON header with an
unrecognized `action` always gets `ERR_UNKNOWN_ACTION`, even when
`filename`, `size` and `checksum` are all present, because the
compatibility route supposedly applies only to headers lacking `action`.
The retro-compatible branch of the code checks only for the three keys and
never that `action` is absent: a header with `action = "frobnicate"` and
all three keys is routed to the transfer engine and answered
`ACK`/`EOF_OK`, not `ERR_UNKNOWN_ACTION`. -/
theorem C4_unknown_action_with_keys_transfers :
    (handleClient
        (fun _ => some (.obj (.cons "action" (.str "frobnicate")
          (.cons "filename" (.str "a.bin") (.cons "size" (.num 0)
          (.cons "checksum" (.str "c") .nil))))))
        (fun _ => some "c") "/srv" "10.0.0.9" 0 (some "hdr") [] []).sends
      = ["ACK", "EOF_OK"]
    ∧ (["ACK", "EOF_OK"] : List String) ≠ ["ERR_UNKNOWN_ACTION\n"] := by
  refine ⟨by decide, by decide⟩

/-- C4 amended: for a decodable JSON object whose `action` is present but is
none of `ping`, `hello`, `data`, `send_file`, the response is
`ERR_UNKNOWN_ACTION\n` exactly when the header does not carry all of
`filename`, `size` and `checksum`; when it carries all three, the
compatibility transfer route applies despite the unrecognized action (the
code never requires `action` to be absent for that route). -/
theorem C4_unknown_action_error_iff_missing_keys
    (parse : String → Option JVal) (cd : List Nat → Option String)
    (destDir ip : String) (now : Nat) (text : String) (fields : JFields)
    (stream : List (List Nat)) (registry : Registry)
    (hping : strLower text ≠ "ping")
    (hparse : parse text = some (.obj fields))
    (haction : (fields.lookupKey "action").isSome = true)
    (hp : actionIs fields "ping" = false)
    (hh : actionIs fields "hello" = false)
    (hd : actionIs fields "data" = false)
    (hs : actionIs fields "send_file" = false) :
    ((handleClient parse cd destDir ip now (some text) stream registry).sends
        = ["ERR_UNKNOWN_ACTION\n"])
      ↔ hasTransferKeys fields = false := by
  cases hkeys : hasTransferKeys fields with
  | true =>
    rw [handleClient_transfer_route parse cd destDir ip now text fields
      stream registry hping hparse hkeys (Or.inr ⟨hp, hh, hd⟩)]
    simp [runTransfer_sends_ne_unknown cd destDir fields stream registry]
  | false =>
    simp [handleClient, hping, hparse, hp, hh, hd, hs, hkeys]

/-- Witness for C4 amended at a concrete header with `action = "frobnicate"`
and no transfer keys: the response is `ERR_UNKNOWN_ACTION\n`. -/
theorem C4_unknown_action_error_iff_missing_keys_witness :
    ((handleClient
        (fun _ => some (.obj (.cons "action" (.str "frobnicate") .nil)))
        (fun _ => none) "/srv" "10.0.0.9" 0 (some "hdr") [] []).sends
      = ["ERR_UNKNOWN_ACTION\n"])
      ↔ hasTransferKeys (.cons "action" (.str "frobnicate") .nil) = false :=
  C4_unknown_action_error_iff_missing_keys
    (fun _ => some (.obj (.cons "action" (.str "frobnicate") .nil)))
    (fun _ => none) "/srv" "10.0.0.9" 0 "hdr"
    (.cons "action" (.str "frobnicate") .nil) [] []
    (by decide) rfl (by decide) (by decide) (by decide) (by decide) (by decide)

/-- C5: for every transfer routed to the transfer engine (explicit
`send_file` action or the retro-compatible route) in which the peer delivers
exactly the declared number of bytes and the digest of those bytes equals
the declared checksum, the server sends `ACK` before the body and `EOF_OK`
after it, and the destination file holds exactly the declared number of
bytes. -/
theorem C5_successful_transfer_eof_ok (parse : String → Option JVal)
    (cd : List Nat → Option String) (destDir ip : String) (now : Nat)
    (text : String) (fields : JFields) (stream : List (List Nat))
    (registry : Registry) (f c : String) (n : Nat)
    (hping : strLower text ≠ "ping")
    (hparse : parse text = some (.obj fields))
    (hroute : actionIs fields "send_file" = true
      ∨ (actionIs fields "ping" = false ∧ actionIs fields "hello" = false
          ∧ actionIs fields "data" = false))
    (hf : fields.lookupKey "filename" = some (.str f))
    (hsz : (fields.lookupKey "size").bind toPySize = some ((n : Nat) : Int))
    (hcs : fields.lookupKey "checksum" = some (.str c))
    (hchunks : ∀ ch ∈ stream, ch ≠ [])
    (hsum : (stream.map List.length).sum = n)
    (hdigest : cd stream.flatten = some c) :
    handleClient parse cd destDir ip now (some text) stream registry
      = { sends := ["ACK", "EOF_OK"]
          fileWrites := [(joinPath destDir f, stream.flatten)]
          registry := registry
          savedRegistry := none
          sensorWrite := none
          crashed := false }
    ∧ stream.flatten.length = n := by
  have hszSome : (fields.lookupKey "size").isSome = true := by
    cases hlk : fields.lookupKey "size" <;> rw [hlk] at hsz <;> simp_all
  have hkeys : hasTransferKeys fields = true := by
    simp [hasTransferKeys, JFields.hasKey, hf, hcs, hszSome]
  constructor
  · rw [handleClient_transfer_route parse cd destDir ip now text fields
      stream registry hping hparse hkeys hroute]
    unfold runTransfer
    simp only [hf, hsz, hcs]
    rw [transferLoop_exact n stream [] 0 hchunks (by simpa using hsum)]
    simp [hdigest, checksumAccepts]
  · rw [List.length_flatten]
    exact hsum

/-- Witness for C5: a 4-byte transfer delivered in two 2-byte chunks with a
matching digest ends in `ACK` then `EOF_OK` and a 4-byte file. -/
theorem C5_successful_transfer_eof_ok_witness :
    handleClient
        (fun _ => some (.obj (.cons "action" (.str "send_file")
          (.cons "filename" (.str "a.bin") (.cons "size" (.num 4)
          (.cons "checksum" (.str "d1g") .nil))))))
        (fun _ => some "d1g") "/srv" "10.0.0.9" 0 (some "hdr")
        [[1, 2], [3, 4]] []
      = { sends := ["ACK", "EOF_OK"]
          fileWrites := [("/srv/a.bin", [1, 2, 3, 4])]
          registry := []
          savedRegistry := none
          sensorWrite := none
          crashed := false }
    ∧ ([[1, 2], [3, 4]] : List (List Nat)).flatten.length = 4 :=
  C5_successful_transfer_eof_ok
    (fun _ => some (.obj (.cons "action" (.str "send_file")
      (.cons "filename" (.str "a.bin") (.cons "size" (.num 4)
      (.cons "checksum" (.str "d1g") .nil))))))
    (fun _ => some "d1g") "/srv" "10.0.0.9" 0 "hdr"
    (.cons "action" (.str "send_file")
      (.cons "filename" (.str "a.bin") (.cons "size" (.num 4)
      (.cons "checksum" (.str "d1g") .nil))))
    [[1, 2], [3, 4]] [] "a.bin" "d1g" 4
    (by decide) rfl (Or.inl (by decide)) (by decide) (by decide) (by decide)
    (by decide) (by decide) rfl

/-- C6: for every transfer routed to the transfer engine in which the digest
of the received bytes differs from the declared checksum, the response is
`ACK` then `ERR_CHECKSUM\n`, the destination file is still written and holds
exactly `bytes_received` bytes (`total_received` of the loop), and the
handler performs no further sends or writes — no retry. -/
theorem C6_checksum_mismatch_err_checksum (parse : String → Option JVal)
    (cd : List Nat → Option String) (destDir ip : String) (now : Nat)
    (text : String) (fields : JFields) (stream : List (List Nat))
    (registry : Registry) (f c a : String) (z : Int)
    (hping : strLower text ≠ "ping")
    (hparse : parse text = some (.obj fields))
    (hroute : actionIs fields "send_file" = true
      ∨ (actionIs fields "ping" = false ∧ actionIs fields "hello" = false
          ∧ actionIs fields "data" = false))
    (hf : fields.lookupKey "filename" = some (.str f))
    (hsz : (fields.lookupKey "size").bind toPySize = some z)
    (hcs : fields.lookupKey "checksum" = some (.str c))
    (hdigest : cd (transferLoop z stream [] 0).1 = some a)
    (hne : a ≠ c) :
    handleClient parse cd destDir ip now (some text) stream registry
      = { sends := ["ACK", "ERR_CHECKSUM\n"]
          fileWrites := [(joinPath destDir f, (transferLoop z stream [] 0).1)]
          registry := registry
          savedRegistry := none
          sensorWrite := none
          crashed := false }
    ∧ (transferLoop z stream [] 0).1.length
        = (transferLoop z stream [] 0).2 := by
  have hszSome : (fields.lookupKey "size").isSome = true := by
    cases hlk : fields.lookupKey "size" <;> rw [hlk] at hsz <;> simp_all
  have hkeys : hasTransferKeys fields = true := by
    simp [hasTransferKeys, JFields.hasKey, hf, hcs, hszSome]
  constructor
  · rw [handleClient_transfer_route parse cd destDir ip now text fields
      stream registry hping hparse hkeys hroute]
    unfold runTransfer
    simp only [hf, hsz, hcs]
    simp [hdigest, checksumAccepts, Ne.symm hne]
  · have h := transferLoop_length z stream [] 0
    simpa using h

/-- Witness for C6: a 1-byte transfer whose computed digest `"WRONG"`
differs from the declared `"right"` gets `ACK` then `ERR_CHECKSUM\n` and the
byte is kept on disk. -/
theorem C6_checksum_mismatch_err_checksum_witness :
    handleClient
        (fun _ => some (.obj (.cons "action" (.str "send_file")
          (.cons "filename" (.str "a.bin") (.cons "size" (.num 1)
          (.cons "checksum" (.str "right") .nil))))))
        (fun _ => some "WRONG") "/srv" "10.0.0.9" 0 (some "hdr") [[5]] []
      = { sends := ["ACK", "ERR_CHECKSUM\n"]
          fileWrites := [("/srv/a.bin", [5])]
          registry := []
          savedRegistry := none
          sensorWrite := none
          crashed := false }
    ∧ (transferLoop 1 [[5]] [] 0).1.length = (transferLoop 1 [[5]] [] 0).2 :=
  C6_checksum_mismatch_err_checksum
    (fun _ => some (.obj (.cons "action" (.str "send_file")
      (.cons "filename" (.str "a.bin") (.cons "size" (.num 1)
      (.cons "checksum" (.str "right") .nil))))))
    (fun _ => some "WRONG") "/srv" "10.0.0.9" 0 "hdr"
    (.cons "action" (.str "send_file")
      (.cons "filename" (.str "a.bin") (.cons "size" (.num 1)
      (.cons "checksum" (.str "right") .nil))))
    [[5]] [] "a.bin" "right" "WRONG" 1
    (by decide) rfl (Or.inl (by decide)) (by decide) (by decide) (by decide)
    rfl (by decide)

/-- C10: for every transfer routed to the transfer engine in which computing
the digest of the written file raises (modelled by `computeDigest` returning
`none`), the except-branch of the source sends `EOF_OK`: a transfer whose
checksum could not be verified at all is reported to the peer exactly like a
verified one. -/
theorem C10_unverifiable_digest_reports_eof_ok (parse : String → Option JVal)
    (cd : List Nat → Option String) (destDir ip : String) (now : Nat)
    (text : String) (fields : JFields) (stream : List (List Nat))
    (registry : Registry) (f : String) (z : Int)
    (hping : strLower text ≠ "ping")
    (hparse : parse text = some (.obj fields))
    (hroute : actionIs fields "send_file" = true
      ∨ (actionIs fields "ping" = false ∧ actionIs fields "hello" = false
          ∧ actionIs fields "data" = false))
    (hf : fields.lookupKey "filename" = some (.str f))
    (hsz : (fields.lookupKey "size").bind toPySize = some z)
    (hcsSome : (fields.lookupKey "checksum").isSome = true)
    (hdigest : cd (transferLoop z stream [] 0).1 = none) :
    (handleClient parse cd destDir ip now (some text) stream registry).sends
      = ["ACK", "EOF_OK"] := by
  have hszSome : (fields.lookupKey "size").isSome = true := by
    cases hlk : fields.lookupKey "size" <;> rw [hlk] at hsz <;> simp_all
  have hkeys : hasTransferKeys fields = true := by
    simp [hasTransferKeys, JFields.hasKey, hf, hcsSome, hszSome]
  rw [handleClient_transfer_route parse cd destDir ip now text fields
    stream registry hping hparse hkeys hroute]
  unfold runTransfer
  simp only [hf, hsz]
  simp [hdigest]

/-- Witness for C10: the digest computation fails (`none`) on a 1-byte
transfer and the server still answers `ACK` then `EOF_OK`. -/
theorem C10_unverifiable_digest_reports_eof_ok_witness :
    (handleClient
        (fun _ => some (.obj (.cons "action" (.str "send_file")
          (.cons "filename" (.str "a.bin") (.cons "size" (.num 1)
          (.cons "checksum" (.str "right") .nil))))))
        (fun _ => none) "/srv" "10.0.0.9" 0 (some "hdr") [[5]] []).sends
      = ["ACK", "EOF_OK"] :=
  C10_unverifiable_digest_reports_eof_ok
    (fun _ => some (.obj (.cons "action" (.str "send_file")
      (.cons "filename" (.str "a.bin") (.cons "size" (.num 1)
      (.cons "checksum" (.str "right") .nil))))))
    (fun _ => none) "/srv" "10.0.0.9" 0 "hdr"
    (.cons "action" (.str "send_file")
      (.cons "filename" (.str "a.bin") (.cons "size" (.num 1)
      (.cons "checksum" (.str "right") .nil))))
    [[5]] [] "a.bin" 1
    (by decide) rfl (Or.inl (by decide)) (by decide) (by decide) (by decide)
    rfl

/-- C9: `unsubscribe(t, cb)` removes every registration of `cb` under `t`
(its filter drops all equal entries), so a subsequent emit of an event of
type `t` invokes `cb` exactly when `cb` is (still) registered under the
wildcard `"*"`; and subscribing then unsubscribing restores
`get_subscriber_count(t)` to its prior value precisely when `cb` was not
registered under `t` beforehand — i.e. when, at unsubscribe time, it was
subscribed exactly once (the one just added). -/
theorem C9_unsubscribe_algebra (m : EventManager) (t : String)
    (cb : Callback) :
    cb ∉ dictGetList (unsubscribe m t cb).subscribers t
    ∧ (cb ∈ emitCallbacks (unsubscribe m t cb) t
        ↔ cb ∈ dictGetList (unsubscribe m t cb).subscribers "*")
    ∧ (getSubscriberCount (unsubscribe (subscribe m t cb) t cb) (some t)
          = getSubscriberCount m (some t)
        ↔ (dictGetList m.subscribers t).count cb = 0) := by
  have h1 : dictGetList (unsubscribe m t cb).subscribers t
      = (dictGetList m.subscribers t).filter (fun c => c ≠ cb) :=
    dictGetList_unsubFilter_self m.subscribers t cb
  refine ⟨?_, ?_, ?_⟩
  · intro hmem
    rw [h1, List.mem_filter] at hmem
    simp at hmem
  · simp [emitCallbacks, List.mem_append, h1, List.mem_filter]
  · by_cases ht : t = ""
    · subst ht
      have hsum := sumLens_sub_unsub m.subscribers "" cb
      have hrw : (unsubscribe (subscribe m "" cb) "" cb).subscribers
          = unsubFilter (subAppend m.subscribers "" cb) "" cb := rfl
      simp only [getSubscriberCount, hrw, if_true]
      constructor <;> intro h <;> omega
    · simp only [getSubscriberCount, if_neg ht]
      have e1 : dictGetList
            (unsubFilter (subAppend m.subscribers t cb) t cb) t
          = ((dictGetList m.subscribers t) ++ [cb]).filter
              (fun c => c ≠ cb) := by
        rw [dictGetList_unsubFilter_self, dictGetList_subAppend_self]
      rw [show (unsubscribe (subscribe m t cb) t cb).subscribers
          = unsubFilter (subAppend m.subscribers t cb) t cb from rfl, e1]
      rw [List.filter_append]
      have h2 : ([cb].filter (fun c => c ≠ cb)) = [] := by simp
      rw [h2, List.append_nil]
      have hlc := length_filter_ne_add_count (dictGetList m.subscribers t) cb
      constructor <;> intro h <;> omega

end IoTVerif
